import Mathlib

/-!
Verification of the gmh commit-message tool (src/main.rs) via a shallow
embedding. The program is a linear flow: repository check, staged-diff
collection via an external git process, a chat-completion request to a
fixed endpoint, a y/n confirmation prompt, and a git commit invocation.

The embedding makes the ambient world explicit: an `Env` record carries
the outcomes of every external interaction (filesystem marker, the two
git process runs, the environment variable, the HTTP exchange, the
console read), and `mainRun` maps an `Env` to the list of observable
events (process invocations, the network request, stdout/stderr lines)
together with the final outcome (normal return vs. panic, since the two
uses of Rust `expect` abort the process).
-/

namespace Gmh

/-- Chat message, mirroring Rust struct `Message { role, content }`. -/
structure Message where
  role : String
  content : String
deriving DecidableEq, Repr

/-- Request payload, mirroring Rust struct `DeepSeekRequest { model, messages, stream }`. -/
structure DeepSeekRequest where
  model : String
  messages : List Message
  stream : Bool
deriving DecidableEq, Repr

/-- Token-usage statistics, mirroring Rust struct `Usage`. -/
structure Usage where
  prompt_tokens : Nat
  completion_tokens : Nat
  total_tokens : Nat
  prompt_cache_hit_tokens : Nat
  prompt_cache_miss_tokens : Nat
deriving DecidableEq, Repr

/-- Response message, mirroring Rust struct `MessageResponse { role, content }`. -/
structure MessageResponse where
  role : String
  content : String
deriving DecidableEq, Repr

/-- One candidate, mirroring Rust struct `Choice`. The `logprobs` field may be
null in the source (`Option<serde_json::Value>`); its value is never consumed,
so it is modelled as an optional opaque string. -/
structure Choice where
  index : Nat
  message : MessageResponse
  logprobs : Option String
  finish_reason : String
deriving DecidableEq, Repr

/-- Parsed response body, mirroring Rust struct `DeepSeekResponse`. -/
structure DeepSeekResponse where
  id : String
  object : String
  created : Nat
  model : String
  choices : List Choice
  usage : Usage
  system_fingerprint : String
deriving DecidableEq, Repr

/-- Outcome of a `Command::new(..).output()` call: either the process could
not be launched (the `map_err` branch), or it ran to completion with an exit
status and captured stdout/stderr byte streams. -/
inductive ToolResult where
  | launchFailure (desc : String)
  | ran (success : Bool) (stdout : List Nat) (stderr : List Nat)
deriving DecidableEq, Repr

/-- Outcome of a `Command::new(..).status()` call: launch failure, or an exit
status. `toolDiagnostic` records whatever the tool printed to its inherited
stderr; the source never captures it, and the proofs show the produced error
text is independent of it. -/
inductive StatusResult where
  | launchFailure (desc : String)
  | exited (success : Bool) (toolDiagnostic : String)
deriving DecidableEq, Repr

/-- The replacement character U+FFFD used by lossy UTF-8 decoding. -/
def replChar : Char := Char.ofNat 0xFFFD

/-- Is `b` a UTF-8 continuation byte (0x80..0xBF)? -/
def isCont (b : Nat) : Bool := 0x80 ≤ b && b ≤ 0xBF

/-- Lossy UTF-8 decoding of a byte list, mirroring Rust
`String::from_utf8_lossy`: well-formed sequences decode to their scalar
value; each maximal invalid subpart is replaced by one U+FFFD; a truncated
sequence at the end of input yields a single U+FFFD. Never fails. -/
def utf8LossyChars : List Nat → List Char
  | [] => []
  | b :: rest =>
    if b ≤ 0x7F then Char.ofNat b :: utf8LossyChars rest
    else if b ≤ 0xC1 then
      -- stray continuation byte (0x80..0xBF) or overlong lead (0xC0, 0xC1)
      replChar :: utf8LossyChars rest
    else if b ≤ 0xDF then
      match rest with
      | [] => [replChar]
      | b1 :: rest1 =>
        if isCont b1 then
          Char.ofNat ((b - 0xC0) * 0x40 + (b1 - 0x80)) :: utf8LossyChars rest1
        else
          replChar :: utf8LossyChars (b1 :: rest1)
    else if b ≤ 0xEF then
      match rest with
      | [] => [replChar]
      | b1 :: rest1 =>
        if (if b = 0xE0 then 0xA0 ≤ b1 && b1 ≤ 0xBF
            else if b = 0xED then 0x80 ≤ b1 && b1 ≤ 0x9F
            else isCont b1) then
          match rest1 with
          | [] => [replChar]
          | b2 :: rest2 =>
            if isCont b2 then
              Char.ofNat ((b - 0xE0) * 0x1000 + (b1 - 0x80) * 0x40 + (b2 - 0x80))
                :: utf8LossyChars rest2
            else
              replChar :: utf8LossyChars (b2 :: rest2)
        else
          replChar :: utf8LossyChars (b1 :: rest1)
    else if b ≤ 0xF4 then
      match rest with
      | [] => [replChar]
      | b1 :: rest1 =>
        if (if b = 0xF0 then 0x90 ≤ b1 && b1 ≤ 0xBF
            else if b = 0xF4 then 0x80 ≤ b1 && b1 ≤ 0x8F
            else isCont b1) then
          match rest1 with
          | [] => [replChar]
          | b2 :: rest2 =>
            if isCont b2 then
              match rest2 with
              | [] => [replChar]
              | b3 :: rest3 =>
                if isCont b3 then
                  Char.ofNat ((b - 0xF0) * 0x40000 + (b1 - 0x80) * 0x1000
                      + (b2 - 0x80) * 0x40 + (b3 - 0x80))
                    :: utf8LossyChars rest3
                else
                  replChar :: utf8LossyChars (b3 :: rest3)
            else
              replChar :: utf8LossyChars (b2 :: rest2)
        else
          replChar :: utf8LossyChars (b1 :: rest1)
    else
      -- invalid lead byte 0xF5..0xFF
      replChar :: utf8LossyChars rest
termination_by structural bs => bs

/-- `String::from_utf8_lossy(bytes).to_string()` on a byte list. -/
def utf8Lossy (bs : List Nat) : String := String.mk (utf8LossyChars bs)

/-- Observable events of one program run: external process invocations with
their structured argument lists, the single HTTPS request, and console lines
(stdout vs. stderr). -/
inductive Event where
  | toolInvoked (program : String) (args : List String)
  | networkRequest (url : String) (bearer : String) (req : DeepSeekRequest)
  | outLine (s : String)
  | errLine (s : String)
deriving DecidableEq, Repr

/-- How the run ends: a normal return from `main` (the process then exits
successfully), or a panic from one of the two `expect` calls. -/
inductive Outcome where
  | exited
  | panicked (msg : String)
deriving DecidableEq, Repr

/-- Result of the generation step: `expect` panic on a missing key, an error
propagated to `main`, or a produced commit message. -/
inductive GenResult where
  | panicked (msg : String)
  | error (e : String)
  | ok (msg : String)
deriving DecidableEq, Repr

/-- The ambient world of one run: whether the `.git` marker path exists, the
outcome of the `git diff --cached` process, the `OPENAI_API_KEY` variable
after `dotenv` (none = unset), the combined send/parse outcome of the HTTPS
exchange, the console line read (none = `read_line` failure), and the outcome
of the `git commit` process. -/
structure Env where
  dotGitExists : Bool
  diffResult : ToolResult
  apiKey : Option String
  httpResult : Except String DeepSeekResponse
  stdinLine : Option String
  commitResult : StatusResult

/-- `is_git_repository`: `Path::new(".git").exists()`, an ambient filesystem
query supplied by the environment. -/
def is_git_repository (env : Env) : Bool := env.dotGitExists

/-- The fixed system instruction from `generate_commit_message`. -/
def systemInstruction : String :=
  "You are a helpful assistant to great a short git commit message"

/-- The fixed endpoint URL from `generate_commit_message`. -/
def chatCompletionsUrl : String := "https://api.deepseek.com/chat/completions"

/-- The request body built by `generate_commit_message` (main.rs lines 74-87):
fixed model, a system message with the fixed instruction, a user message
carrying the diff verbatim, streaming disabled. -/
def buildRequestBody (diff : String) : DeepSeekRequest :=
  { model := "deepseek-chat"
    messages :=
      [ { role := "system", content := systemInstruction }
      , { role := "user", content := diff } ]
    stream := false }

/-- `get_git_diff`: runs `git diff --cached`; on success returns stdout
decoded lossily, otherwise an error carrying the lossily decoded stderr (or
the launch-failure description). Returns the emitted events together with
the result. -/
def get_git_diff (r : ToolResult) : List Event × Except String String :=
  ( [Event.toolInvoked "git" ["diff", "--cached"]]
  , match r with
    | .launchFailure e => .error e
    | .ran success stdout stderr =>
      if success then .ok (utf8Lossy stdout) else .error (utf8Lossy stderr) )

/-- `generate_commit_message`: reads the key with `expect` (panicking when it
is unset), builds the request body, sends it to the fixed endpoint, parses the
response, and returns the first candidate content, or a "no response" error
for an empty candidate list. -/
def generate_commit_message (apiKey : Option String)
    (http : Except String DeepSeekResponse) (diff : String) :
    List Event × GenResult :=
  match apiKey with
  | none => ([], .panicked "OPENAI_API_KEY not set in .env file")
  | some key =>
    let request_body := buildRequestBody diff
    ( [Event.networkRequest chatCompletionsUrl key request_body]
    , match http with
      | .error e => .error e
      | .ok response_body =>
        match response_body.choices.head? with
        | some choice => .ok choice.message.content
        | none => .error "No response from DeepSeek" )

/-- `commit_changes`: runs `git commit -m <message>` with the message as one
discrete argument; a non-zero exit yields the fixed "Failed to commit
changes" text regardless of the tool's own diagnostic output. -/
def commit_changes (r : StatusResult) (commit_message : String) :
    List Event × Except String Unit :=
  ( [Event.toolInvoked "git" ["commit", "-m", commit_message]]
  , match r with
    | .launchFailure e => .error e
    | .exited s _ => if s then .ok () else .error "Failed to commit changes" )

/-- The Unicode White_Space property as used by Rust `char::is_whitespace`:
U+0009..U+000D, U+0020, U+0085, U+00A0, U+1680, U+2000..U+200A, U+2028,
U+2029, U+202F, U+205F and U+3000. -/
def rustIsWhitespace (c : Char) : Bool :=
  let n := c.toNat
  (0x09 ≤ n && n ≤ 0x0D) || n = 0x20 || n = 0x85 || n = 0xA0 || n = 0x1680 ||
  (0x2000 ≤ n && n ≤ 0x200A) || n = 0x2028 || n = 0x2029 || n = 0x202F ||
  n = 0x205F || n = 0x3000

/-- Rust `str::trim`: remove leading and trailing Unicode White_Space
characters. Modelled on the character list so that the kernel can evaluate
it. -/
def rustTrim (s : String) : String :=
  String.mk
    (((s.data.dropWhile rustIsWhitespace).reverse.dropWhile rustIsWhitespace).reverse)

/-- Rust `str::to_lowercase`, character-wise. The source performs full
Unicode lowercasing; `Char.toLower` agrees with it on the ASCII inputs the
flow distinguishes. -/
def rustToLower (s : String) : String :=
  String.mk (s.data.map Char.toLower)

/-- The confirmation test from `main` (line 169): the read line is trimmed
and lower-cased and compared to the literal "y". -/
def confirmsCommit (input : String) : Bool :=
  rustToLower (rustTrim input) == "y"

/-- The whole `main` flow as a function of the ambient world: returns the
event trace and the outcome. Mirrors main.rs lines 131-178 branch by
branch; `dotenv().ok()` only populates the environment modelled by
`Env.apiKey` and emits no observable event. -/
def mainRun (env : Env) : List Event × Outcome :=
  if !is_git_repository env then
    ([Event.errLine "Current directory is not a Git repository."], .exited)
  else
    let (dEvents, diffRes) := get_git_diff env.diffResult
    match diffRes with
    | .error err =>
      (dEvents ++ [Event.errLine ("Error getting git diff: " ++ err)], .exited)
    | .ok diff =>
      if diff.isEmpty then
        (dEvents ++ [Event.outLine "No changes detected."], .exited)
      else
        let (gEvents, genRes) := generate_commit_message env.apiKey env.httpResult diff
        match genRes with
        | .panicked m => (dEvents ++ gEvents, .panicked m)
        | .error err =>
          (dEvents ++ gEvents
            ++ [Event.errLine ("Error generating commit message: " ++ err)], .exited)
        | .ok commit_message =>
          let pre := dEvents ++ gEvents
            ++ [ Event.outLine ("Generated commit message:\n" ++ commit_message)
               , Event.outLine "Do you want to commit these changes? (y/n)" ]
          match env.stdinLine with
          | none => (pre, .panicked "Failed to read input")
          | some input =>
            if confirmsCommit input then
              let (cEvents, cRes) := commit_changes env.commitResult commit_message
              match cRes with
              | .error err =>
                (pre ++ cEvents
                  ++ [Event.errLine ("Error committing changes: " ++ err)], .exited)
              | .ok _ =>
                (pre ++ cEvents
                  ++ [Event.outLine "Changes committed successfully."], .exited)
            else
              (pre ++ [Event.outLine "Commit canceled."], .exited)

/-- A concrete candidate used to instantiate theorems on closed inputs. -/
def sampleChoice (content : String) : Choice :=
  { index := 0, message := { role := "assistant", content := content }
    logprobs := none, finish_reason := "stop" }

/-- A concrete response used to instantiate theorems on closed inputs. -/
def sampleResponse (cs : List Choice) : DeepSeekResponse :=
  { id := "id", object := "chat.completion", created := 0, model := "deepseek-chat"
    choices := cs, usage := ⟨0, 0, 0, 0, 0⟩, system_fingerprint := "fp" }

/-- A concrete environment (a git repository whose staged diff decodes from
`stdout`) used to instantiate theorems on closed inputs. -/
def sampleEnv (stdout : List Nat) (key : Option String)
    (http : Except String DeepSeekResponse) (stdin : Option String)
    (cres : StatusResult) : Env :=
  { dotGitExists := true, diffResult := .ran true stdout []
    apiKey := key, httpResult := http, stdinLine := stdin, commitResult := cres }

/-- The four events emitted between diff collection and the confirmation
prompt once generation succeeds: the diff invocation, the network request,
the message print and the prompt print. -/
def promptPrefix (key diff content : String) : List Event :=
  [ Event.toolInvoked "git" ["diff", "--cached"]
  , Event.networkRequest chatCompletionsUrl key (buildRequestBody diff)
  , Event.outLine ("Generated commit message:\n" ++ content)
  , Event.outLine "Do you want to commit these changes? (y/n)" ]

/-- Does the trace end with a console line (stdout or stderr)? -/
def endsWithConsoleLine : List Event → Bool
  | [] => false
  | [Event.outLine _] => true
  | [Event.errLine _] => true
  | [_] => false
  | _ :: rest => endsWithConsoleLine rest

/-- A string strictly longer than `r` never equals `r`; separates console
lines that embed an arbitrary generated message from fixed ones. -/
theorem append_ne_of_lt_length (s t r : String) (h : r.length < s.length) :
    s ++ t ≠ r := by
  intro heq
  have hlen := congrArg String.length heq
  rw [String.length_append] at hlen
  omega

/-- On pure ASCII input the lossy decoder is the byte-wise decoding. -/
theorem utf8LossyChars_ascii (bs : List Nat) (h : ∀ b ∈ bs, b ≤ 0x7F) :
    utf8LossyChars bs = bs.map Char.ofNat := by
  induction bs with
  | nil => rfl
  | cons b rest ih =>
    have hb : b ≤ 0x7F := h b (by simp)
    rw [utf8LossyChars.eq_def]
    simp only [hb, if_pos, List.map_cons]
    exact congrArg _ (ih fun x hx => h x (by simp [hx]))

/-- Any commit invocation in the trace presupposes the whole confirmed flow:
a repository, a successful non-empty diff, a key, a parsed response with at
least one candidate, a read input line that confirms, and the invoked message
is the first candidate's content. -/
theorem mainRun_commit_inv (env : Env) (m : String)
    (h : Event.toolInvoked "git" ["commit", "-m", m] ∈ (mainRun env).1) :
    env.dotGitExists = true ∧
    (∃ so se, env.diffResult = ToolResult.ran true so se ∧ utf8Lossy so ≠ "") ∧
    (∃ key, env.apiKey = some key) ∧
    ∃ resp c cs input, env.httpResult = Except.ok resp ∧ resp.choices = c :: cs ∧
      env.stdinLine = some input ∧ confirmsCommit input = true ∧
      m = c.message.content := by
  rcases env with ⟨git, dres, akey, http, stdin, cres⟩
  cases git
  · simp [mainRun, is_git_repository] at h
  · rcases dres with e | ⟨s, so, se⟩
    · simp [mainRun, is_git_repository, get_git_diff] at h
    · cases s
      · simp [mainRun, is_git_repository, get_git_diff] at h
      · by_cases hemp : (utf8Lossy so).isEmpty
        · simp [mainRun, is_git_repository, get_git_diff, hemp] at h
        · have hne : utf8Lossy so ≠ "" := fun hc => hemp (by rw [hc]; rfl)
          rcases akey with _ | key
          · simp [mainRun, is_git_repository, get_git_diff, hemp,
              generate_commit_message] at h
          · rcases http with e2 | resp
            · simp [mainRun, is_git_repository, get_git_diff, hemp,
                generate_commit_message] at h
            · rcases hch : resp.choices with _ | ⟨c, cs⟩
              · simp [mainRun, is_git_repository, get_git_diff, hemp,
                  generate_commit_message, hch] at h
              · rcases stdin with _ | input
                · simp [mainRun, is_git_repository, get_git_diff, hemp,
                    generate_commit_message, hch] at h
                · by_cases hcf : confirmsCommit input
                  · rcases cres with e3 | ⟨cs2, d⟩
                    · simp [mainRun, is_git_repository, get_git_diff, hemp,
                        generate_commit_message, hch, hcf, commit_changes] at h
                      exact ⟨rfl, ⟨so, se, rfl, hne⟩, ⟨key, rfl⟩,
                        resp, c, cs, input, rfl, hch, rfl, hcf, h⟩
                    · cases cs2 <;>
                        simp [mainRun, is_git_repository, get_git_diff, hemp,
                          generate_commit_message, hch, hcf, commit_changes] at h <;>
                        exact ⟨rfl, ⟨so, se, rfl, hne⟩, ⟨key, rfl⟩,
                          resp, c, cs, input, rfl, hch, rfl, hcf, h⟩
                  · simp [mainRun, is_git_repository, get_git_diff, hemp,
                      generate_commit_message, hch, hcf] at h

/-- Forward characterization: once the run reaches the confirmation prompt
(repository, successful non-empty diff, key present, parsed response with a
first candidate), the remaining behaviour is fully determined by the console
read, the confirmation test and the commit process outcome. -/
theorem mainRun_prompt (env : Env) (so se : List Nat) (key : String)
    (resp : DeepSeekResponse) (c : Choice) (cs : List Choice)
    (hgit : env.dotGitExists = true)
    (hdiff : env.diffResult = ToolResult.ran true so se)
    (hne : utf8Lossy so ≠ "")
    (hkey : env.apiKey = some key)
    (hhttp : env.httpResult = Except.ok resp)
    (hch : resp.choices = c :: cs) :
    mainRun env =
      match env.stdinLine with
      | none =>
        (promptPrefix key (utf8Lossy so) c.message.content,
         Outcome.panicked "Failed to read input")
      | some input =>
        if confirmsCommit input then
          match env.commitResult with
          | .launchFailure e =>
            (promptPrefix key (utf8Lossy so) c.message.content
              ++ [Event.toolInvoked "git" ["commit", "-m", c.message.content],
                  Event.errLine ("Error committing changes: " ++ e)], Outcome.exited)
          | .exited true _ =>
            (promptPrefix key (utf8Lossy so) c.message.content
              ++ [Event.toolInvoked "git" ["commit", "-m", c.message.content],
                  Event.outLine "Changes committed successfully."], Outcome.exited)
          | .exited false _ =>
            (promptPrefix key (utf8Lossy so) c.message.content
              ++ [Event.toolInvoked "git" ["commit", "-m", c.message.content],
                  Event.errLine ("Error committing changes: " ++ "Failed to commit changes")],
             Outcome.exited)
        else
          (promptPrefix key (utf8Lossy so) c.message.content
            ++ [Event.outLine "Commit canceled."], Outcome.exited) := by
  rcases env with ⟨git, dres, akey, http, stdin, cres⟩
  simp only at hgit hdiff hkey hhttp
  subst hgit hdiff hkey hhttp
  have hemp : (utf8Lossy so).isEmpty = false := by
    rw [Bool.eq_false_iff]
    exact fun hc => hne ((String.isEmpty_iff _).1 hc)
  rcases stdin with _ | input
  · simp [mainRun, is_git_repository, get_git_diff, hemp,
      generate_commit_message, hch, promptPrefix]
  · by_cases hcf : confirmsCommit input
    · rcases cres with e3 | ⟨cs2, d⟩
      · simp [mainRun, is_git_repository, get_git_diff, hemp,
          generate_commit_message, hch, hcf, commit_changes, promptPrefix]
      · cases cs2 <;>
          simp [mainRun, is_git_repository, get_git_diff, hemp,
            generate_commit_message, hch, hcf, commit_changes, promptPrefix]
    · simp [mainRun, is_git_repository, get_git_diff, hemp,
        generate_commit_message, hch, hcf, promptPrefix]

/-- The cancellation notice appears in the trace only when a line was in fact
read from the console and failed the confirmation test. -/
theorem mainRun_cancel_inv (env : Env)
    (h : Event.outLine "Commit canceled." ∈ (mainRun env).1) :
    ∃ input, env.stdinLine = some input ∧ confirmsCommit input = false := by
  rcases env with ⟨git, dres, akey, http, stdin, cres⟩
  cases git
  · simp [mainRun, is_git_repository] at h
  · rcases dres with e | ⟨s, so, se⟩
    · simp [mainRun, is_git_repository, get_git_diff] at h
    · cases s
      · simp [mainRun, is_git_repository, get_git_diff] at h
      · by_cases hemp : (utf8Lossy so).isEmpty
        · simp [mainRun, is_git_repository, get_git_diff, hemp] at h
        · have hgen := append_ne_of_lt_length "Generated commit message:\n"
            "" "Commit canceled." (by decide)
          rcases akey with _ | key
          · simp [mainRun, is_git_repository, get_git_diff, hemp,
              generate_commit_message] at h
          · rcases http with e2 | resp
            · simp [mainRun, is_git_repository, get_git_diff, hemp,
                generate_commit_message] at h
            · rcases hch : resp.choices with _ | ⟨c, cs⟩
              · simp [mainRun, is_git_repository, get_git_diff, hemp,
                  generate_commit_message, hch] at h
              · have hgen2 := append_ne_of_lt_length "Generated commit message:\n"
                  c.message.content "Commit canceled." (by decide)
                have hgen2s := Ne.symm hgen2
                rcases stdin with _ | input
                · simp [mainRun, is_git_repository, get_git_diff, hemp,
                    generate_commit_message, hch, hgen2, hgen2s] at h
                · by_cases hcf : confirmsCommit input
                  · rcases cres with e3 | ⟨cs2, d⟩
                    · simp [mainRun, is_git_repository, get_git_diff, hemp,
                        generate_commit_message, hch, hcf, commit_changes, hgen2, hgen2s] at h
                    · cases cs2 <;>
                        simp [mainRun, is_git_repository, get_git_diff, hemp,
                          generate_commit_message, hch, hcf, commit_changes, hgen2, hgen2s] at h
                  · exact ⟨input, rfl, by simpa using hcf⟩

/-- The "No changes detected." notice appears in the trace only when the diff
process succeeded and its stdout decoded to the empty string. -/
theorem mainRun_nochanges_inv (env : Env)
    (h : Event.outLine "No changes detected." ∈ (mainRun env).1) :
    ∃ so se, env.diffResult = ToolResult.ran true so se ∧ utf8Lossy so = "" := by
  rcases env with ⟨git, dres, akey, http, stdin, cres⟩
  cases git
  · simp [mainRun, is_git_repository] at h
  · rcases dres with e | ⟨s, so, se⟩
    · simp [mainRun, is_git_repository, get_git_diff] at h
    · cases s
      · simp [mainRun, is_git_repository, get_git_diff] at h
      · by_cases hemp : (utf8Lossy so).isEmpty
        · exact ⟨so, se, rfl, (String.isEmpty_iff _).1 hemp⟩
        · rcases akey with _ | key
          · simp [mainRun, is_git_repository, get_git_diff, hemp,
              generate_commit_message] at h
          · rcases http with e2 | resp
            · simp [mainRun, is_git_repository, get_git_diff, hemp,
                generate_commit_message] at h
            · rcases hch : resp.choices with _ | ⟨c, cs⟩
              · simp [mainRun, is_git_repository, get_git_diff, hemp,
                  generate_commit_message, hch] at h
              · have hgen2 := append_ne_of_lt_length "Generated commit message:\n"
                  c.message.content "No changes detected." (by decide)
                have hgen2s := Ne.symm hgen2
                rcases stdin with _ | input
                · simp [mainRun, is_git_repository, get_git_diff, hemp,
                    generate_commit_message, hch, hgen2, hgen2s] at h
                · by_cases hcf : confirmsCommit input
                  · rcases cres with e3 | ⟨cs2, d⟩
                    · simp [mainRun, is_git_repository, get_git_diff, hemp,
                        generate_commit_message, hch, hcf, commit_changes, hgen2, hgen2s] at h
                    · cases cs2 <;>
                        simp [mainRun, is_git_repository, get_git_diff, hemp,
                          generate_commit_message, hch, hcf, commit_changes, hgen2, hgen2s] at h
                  · simp [mainRun, is_git_repository, get_git_diff, hemp,
                      generate_commit_message, hch, hcf, hgen2, hgen2s] at h

/-- Once the run passes the empty-diff gate with a key present, the network
request for the decoded diff is always in the trace, whatever happens
afterwards. -/
theorem mainRun_network_mem (env : Env) (so se : List Nat) (key : String)
    (hgit : env.dotGitExists = true)
    (hdiff : env.diffResult = ToolResult.ran true so se)
    (hne : utf8Lossy so ≠ "")
    (hkey : env.apiKey = some key) :
    Event.networkRequest chatCompletionsUrl key (buildRequestBody (utf8Lossy so))
      ∈ (mainRun env).1 := by
  rcases env with ⟨git, dres, akey, http, stdin, cres⟩
  simp only at hgit hdiff hkey
  subst hgit hdiff hkey
  have hemp : (utf8Lossy so).isEmpty = false := by
    rw [Bool.eq_false_iff]
    exact fun hc => hne ((String.isEmpty_iff _).1 hc)
  rcases http with e2 | resp
  · simp [mainRun, is_git_repository, get_git_diff, hemp, generate_commit_message]
  · rcases hch : resp.choices with _ | ⟨c, cs⟩
    · simp [mainRun, is_git_repository, get_git_diff, hemp,
        generate_commit_message, hch]
    · rcases stdin with _ | input
      · simp [mainRun, is_git_repository, get_git_diff, hemp,
          generate_commit_message, hch]
      · by_cases hcf : confirmsCommit input
        · rcases cres with e3 | ⟨cs2, d⟩
          · simp [mainRun, is_git_repository, get_git_diff, hemp,
              generate_commit_message, hch, hcf, commit_changes]
          · cases cs2 <;>
              simp [mainRun, is_git_repository, get_git_diff, hemp,
                generate_commit_message, hch, hcf, commit_changes]
        · simp [mainRun, is_git_repository, get_git_diff, hemp,
            generate_commit_message, hch, hcf]

/-- C1: every chat request the commit-message generator constructs has the
fixed model identifier "deepseek-chat", the streaming flag false, and exactly
two messages: first a system entry with the fixed instruction, second a user
entry whose content is byte-for-byte the collected diff text. -/
theorem request_construction_shape (apiKey : Option String)
    (http : Except String DeepSeekResponse) (diff url bearer : String)
    (req : DeepSeekRequest)
    (hmem : Event.networkRequest url bearer req
      ∈ (generate_commit_message apiKey http diff).1) :
    req.model = "deepseek-chat" ∧ req.stream = false ∧
    req.messages.length = 2 ∧
    req.messages = [{ role := "system", content := systemInstruction },
                    { role := "user", content := diff }] := by
  rcases apiKey with _ | key
  · simp [generate_commit_message] at hmem
  · simp [generate_commit_message] at hmem
    rcases hmem with ⟨h1, h2, h3⟩
    subst h3
    simp [buildRequestBody]

/-- Witness for C1 at a concrete request construction. -/
theorem request_construction_shape_witness :
    (buildRequestBody "+foo\n-bar\n").model = "deepseek-chat" ∧
    (buildRequestBody "+foo\n-bar\n").stream = false ∧
    (buildRequestBody "+foo\n-bar\n").messages.length = 2 ∧
    (buildRequestBody "+foo\n-bar\n").messages
      = [{ role := "system", content := systemInstruction },
         { role := "user", content := "+foo\n-bar\n" }] :=
  request_construction_shape (some "k") (Except.error "down") "+foo\n-bar\n"
    chatCompletionsUrl "k" (buildRequestBody "+foo\n-bar\n")
    (by simp [generate_commit_message])

/-- C2: for a successfully parsed response, the generator returns exactly the
first candidate's content when the candidate list is non-empty, regardless of
later candidates; for an empty candidate list it fails with the "No response
from DeepSeek" error, and no commit invocation occurs in any such run. -/
theorem first_candidate_extraction (key diff : String) (resp : DeepSeekResponse) :
    (∀ c cs, resp.choices = c :: cs →
      (generate_commit_message (some key) (Except.ok resp) diff).2
        = GenResult.ok c.message.content) ∧
    (resp.choices = [] →
      (generate_commit_message (some key) (Except.ok resp) diff).2
        = GenResult.error "No response from DeepSeek") ∧
    (∀ env m, env.httpResult = Except.ok resp → resp.choices = [] →
      Event.toolInvoked "git" ["commit", "-m", m] ∉ (mainRun env).1) := by
  refine ⟨?_, ?_, ?_⟩
  · intro c cs hch
    simp [generate_commit_message, hch]
  · intro hch
    simp [generate_commit_message, hch]
  · intro env m hh hch hmem
    obtain ⟨_, _, _, resp2, c, cs, input, hh2, hch2, _, _, _⟩ :=
      mainRun_commit_inv env m hmem
    have h12 := hh.symm.trans hh2
    injection h12 with he
    subst he
    rw [hch] at hch2
    simp at hch2

/-- Witness for C2: a two-candidate response yields the first content, an
empty one the "no response" error. -/
theorem first_candidate_extraction_witness :
    (generate_commit_message (some "k")
        (Except.ok (sampleResponse
          [sampleChoice "Add foo, remove bar", sampleChoice "other"])) "d").2
      = GenResult.ok "Add foo, remove bar" ∧
    (generate_commit_message (some "k") (Except.ok (sampleResponse [])) "d").2
      = GenResult.error "No response from DeepSeek" := by
  constructor
  · simpa [sampleChoice] using (first_candidate_extraction "k" "d"
      (sampleResponse [sampleChoice "Add foo, remove bar", sampleChoice "other"])).1
      (sampleChoice "Add foo, remove bar") [sampleChoice "other"] rfl
  · exact (first_candidate_extraction "k" "d" (sampleResponse [])).2.1 rfl

/-- C6: the diff collector invokes only `git diff --cached`; on tool success
it returns the stdout decoded lossily as UTF-8 (the decoding is total: on
pure ASCII it is byte-wise, and malformed bytes become U+FFFD instead of
failing); on tool failure an error carrying the decoded stderr; on launch
failure an error carrying the failure description. -/
theorem diff_collection_contract (r : ToolResult) :
    ((get_git_diff r).1 = [Event.toolInvoked "git" ["diff", "--cached"]]) ∧
    (∀ so se, r = ToolResult.ran true so se →
      (get_git_diff r).2 = Except.ok (utf8Lossy so)) ∧
    (∀ so se, r = ToolResult.ran false so se →
      (get_git_diff r).2 = Except.error (utf8Lossy se)) ∧
    (∀ e, r = ToolResult.launchFailure e →
      (get_git_diff r).2 = Except.error e) ∧
    (∀ bs, (∀ b ∈ bs, b ≤ 0x7F) →
      utf8Lossy bs = String.mk (bs.map Char.ofNat)) ∧
    utf8Lossy [0x61, 0xFF, 0x62] = String.mk ['a', replChar, 'b'] := by
  refine ⟨rfl, ?_, ?_, ?_, ?_, by decide⟩
  · intro so se h; subst h; simp [get_git_diff]
  · intro so se h; subst h; simp [get_git_diff]
  · intro e h; subst h; simp [get_git_diff]
  · intro bs h
    unfold utf8Lossy
    rw [utf8LossyChars_ascii bs h]

/-- Witness for C6 at concrete tool outcomes. -/
theorem diff_collection_contract_witness :
    (get_git_diff (ToolResult.ran true [0x61] [])).2 = Except.ok (utf8Lossy [0x61]) ∧
    (get_git_diff (ToolResult.ran false [] [0x62])).2 = Except.error (utf8Lossy [0x62]) ∧
    (get_git_diff (ToolResult.launchFailure "spawn failed")).2
      = Except.error "spawn failed" :=
  ⟨(diff_collection_contract _).2.1 [0x61] [] rfl,
   (diff_collection_contract _).2.2.1 [] [0x62] rfl,
   (diff_collection_contract _).2.2.2.1 "spawn failed" rfl⟩

/-- C7: the committer passes the message verbatim as one discrete argument to
`git commit -m`; a non-zero exit yields the fixed "Failed to commit changes"
error whatever the tool's own diagnostic output was; a zero exit succeeds and
`main` then prints the confirmation line. -/
theorem commit_step_contract (commit_message : String) (st : StatusResult) :
    ((commit_changes st commit_message).1
      = [Event.toolInvoked "git" ["commit", "-m", commit_message]]) ∧
    (∀ d, st = StatusResult.exited false d →
      (commit_changes st commit_message).2
        = Except.error "Failed to commit changes") ∧
    (∀ d, st = StatusResult.exited true d →
      (commit_changes st commit_message).2 = Except.ok ()) ∧
    (∀ env d m, env.commitResult = StatusResult.exited true d →
      Event.toolInvoked "git" ["commit", "-m", m] ∈ (mainRun env).1 →
      Event.outLine "Changes committed successfully." ∈ (mainRun env).1) := by
  refine ⟨rfl, ?_, ?_, ?_⟩
  · intro d h; subst h; simp [commit_changes]
  · intro d h; subst h; simp [commit_changes]
  · intro env d m hcres hmem
    obtain ⟨hgit, ⟨so, se, hdiff, hne⟩, ⟨key, hkey⟩,
        resp, c, cs, input, hh, hch, hin, hcf, hm⟩ :=
      mainRun_commit_inv env m hmem
    have hmain := mainRun_prompt env so se key resp c cs hgit hdiff hne hkey hh hch
    rw [hin] at hmain
    rw [hmain, hcres]
    simp [hcf, promptPrefix]

/-- Witness for C7 at concrete commit outcomes and a concrete confirmed run. -/
theorem commit_step_contract_witness :
    (commit_changes (StatusResult.exited false "fatal: nothing to commit") "msg").2
      = Except.error "Failed to commit changes" ∧
    (commit_changes (StatusResult.exited true "") "msg").2 = Except.ok () ∧
    Event.outLine "Changes committed successfully."
      ∈ (mainRun (sampleEnv [0x61] (some "k")
          (Except.ok (sampleResponse [sampleChoice "msg"])) (some "y")
          (StatusResult.exited true ""))).1 :=
  ⟨(commit_step_contract "msg" _).2.1 "fatal: nothing to commit" rfl,
   (commit_step_contract "msg" _).2.2.1 "" rfl,
   (commit_step_contract "msg" (StatusResult.exited true "")).2.2.2
     (sampleEnv [0x61] (some "k")
      (Except.ok (sampleResponse [sampleChoice "msg"])) (some "y")
      (StatusResult.exited true "")) "" "msg" rfl (by decide)⟩

/-- C3: at the confirmation prompt the read line is trimmed and lower-cased
and the commit path is selected exactly when the result equals the literal
"y"; any other input takes the cancel path, which prints the cancellation
notice and exits normally; in particular "y", "Y", " y\n" confirm — as do
inputs padded with non-ASCII Unicode whitespace such as form feed (U+000C)
and no-break space (U+00A0) — while "n", "", "yes", "Yes " cancel. -/
theorem confirmation_gate (env : Env) (so se : List Nat) (key input : String)
    (resp : DeepSeekResponse) (c : Choice) (cs : List Choice)
    (hgit : env.dotGitExists = true)
    (hdiff : env.diffResult = ToolResult.ran true so se)
    (hne : utf8Lossy so ≠ "")
    (hkey : env.apiKey = some key)
    (hhttp : env.httpResult = Except.ok resp)
    (hch : resp.choices = c :: cs)
    (hin : env.stdinLine = some input) :
    (rustToLower (rustTrim input) = "y" →
      Event.toolInvoked "git" ["commit", "-m", c.message.content]
        ∈ (mainRun env).1) ∧
    (rustToLower (rustTrim input) ≠ "y" →
      mainRun env = (promptPrefix key (utf8Lossy so) c.message.content
        ++ [Event.outLine "Commit canceled."], Outcome.exited) ∧
      ∀ m, Event.toolInvoked "git" ["commit", "-m", m] ∉ (mainRun env).1) ∧
    (confirmsCommit "y" = true ∧ confirmsCommit "Y" = true ∧
     confirmsCommit " y\n" = true ∧ confirmsCommit "y\x0C" = true ∧
     confirmsCommit "\u00A0y\u00A0" = true ∧ confirmsCommit "n" = false ∧
     confirmsCommit "" = false ∧ confirmsCommit "yes" = false ∧
     confirmsCommit "Yes " = false) := by
  have hmain := mainRun_prompt env so se key resp c cs hgit hdiff hne hkey hhttp hch
  rw [hin] at hmain
  refine ⟨?_, ?_, by decide⟩
  · intro hy
    have hcf : confirmsCommit input = true := by
      simp [confirmsCommit, hy]
    rw [hmain]
    rcases hcr : env.commitResult with e | ⟨b, d⟩
    · simp [hcf, promptPrefix]
    · cases b <;> simp [hcf, promptPrefix]
  · intro hy
    have hcf : confirmsCommit input = false := by
      simp [confirmsCommit]
      exact hy
    rw [hmain]
    simp only [hcf]
    refine ⟨rfl, ?_⟩
    intro m
    simp [promptPrefix]

/-- Witness for C3: the input " y\n" confirms and the commit invocation
appears in the trace. -/
theorem confirmation_gate_witness :
    Event.toolInvoked "git" ["commit", "-m", "msg"]
      ∈ (mainRun (sampleEnv [0x61] (some "k")
          (Except.ok (sampleResponse [sampleChoice "msg"])) (some " y\n")
          (StatusResult.exited true ""))).1 := by
  simpa [sampleChoice] using (confirmation_gate (sampleEnv [0x61] (some "k")
      (Except.ok (sampleResponse [sampleChoice "msg"])) (some " y\n")
      (StatusResult.exited true "")) [0x61] [] "k" " y\n"
      (sampleResponse [sampleChoice "msg"]) (sampleChoice "msg") []
      rfl rfl (by decide) rfl rfl rfl rfl).1 (by decide)

/-- C4: when diff collection succeeds with the empty string, the run prints
"No changes detected." and stops: the whole trace is the diff invocation and
that line, with no request construction, no network call and no commit. -/
theorem empty_diff_short_circuit (env : Env) (so se : List Nat)
    (hgit : env.dotGitExists = true)
    (hdiff : env.diffResult = ToolResult.ran true so se)
    (hempty : utf8Lossy so = "") :
    mainRun env = ([Event.toolInvoked "git" ["diff", "--cached"],
                    Event.outLine "No changes detected."], Outcome.exited) ∧
    (∀ u b r, Event.networkRequest u b r ∉ (mainRun env).1) ∧
    (∀ m, Event.toolInvoked "git" ["commit", "-m", m] ∉ (mainRun env).1) := by
  have hemp : (utf8Lossy so).isEmpty = true := by rw [hempty]; rfl
  have hmain : mainRun env = ([Event.toolInvoked "git" ["diff", "--cached"],
      Event.outLine "No changes detected."], Outcome.exited) := by
    rcases env with ⟨git, dres, akey, http, stdin, cres⟩
    simp only at hgit hdiff
    subst hgit hdiff
    simp [mainRun, is_git_repository, get_git_diff, hemp]
  refine ⟨hmain, ?_, ?_⟩ <;> intros <;> rw [hmain] <;> simp

/-- Witness for C4 at a concrete empty-diff run. -/
theorem empty_diff_short_circuit_witness :
    mainRun (sampleEnv [] (some "k") (Except.error "down") none
        (StatusResult.exited true ""))
      = ([Event.toolInvoked "git" ["diff", "--cached"],
          Event.outLine "No changes detected."], Outcome.exited) :=
  (empty_diff_short_circuit (sampleEnv [] (some "k") (Except.error "down") none
      (StatusResult.exited true "")) [] [] rfl rfl (by decide)).1

/-- C5: without the `.git` marker the run performs no tool invocation and no
network call: the entire trace is the repository-check diagnostic on the
error stream, and the run terminates. -/
theorem not_a_repository_aborts (env : Env) (h : env.dotGitExists = false) :
    mainRun env = ([Event.errLine "Current directory is not a Git repository."],
                   Outcome.exited) ∧
    (∀ p args, Event.toolInvoked p args ∉ (mainRun env).1) ∧
    (∀ u b r, Event.networkRequest u b r ∉ (mainRun env).1) := by
  have hmain : mainRun env
      = ([Event.errLine "Current directory is not a Git repository."],
         Outcome.exited) := by
    simp [mainRun, is_git_repository, h]
  refine ⟨hmain, ?_, ?_⟩ <;> intros <;> rw [hmain] <;> simp

/-- Witness for C5 at a concrete non-repository environment. -/
theorem not_a_repository_aborts_witness :
    mainRun { dotGitExists := false, diffResult := ToolResult.ran true [] []
              apiKey := none, httpResult := Except.error "down"
              stdinLine := none, commitResult := StatusResult.exited true "" }
      = ([Event.errLine "Current directory is not a Git repository."],
         Outcome.exited) :=
  (not_a_repository_aborts _ rfl).1

/-- C9: a failed read of the confirmation line panics with the "Failed to
read input" diagnostic; it never commits and never takes the cancel path (no
cancellation notice is printed), so a read failure is not an implicit "no". -/
theorem read_failure_is_fatal (env : Env) (hin : env.stdinLine = none) :
    (∀ m, Event.toolInvoked "git" ["commit", "-m", m] ∉ (mainRun env).1) ∧
    (Event.outLine "Commit canceled." ∉ (mainRun env).1) ∧
    (∀ so se key resp c cs, env.dotGitExists = true →
      env.diffResult = ToolResult.ran true so se → utf8Lossy so ≠ "" →
      env.apiKey = some key → env.httpResult = Except.ok resp →
      resp.choices = c :: cs →
      mainRun env = (promptPrefix key (utf8Lossy so) c.message.content,
                     Outcome.panicked "Failed to read input")) := by
  refine ⟨?_, ?_, ?_⟩
  · intro m hmem
    obtain ⟨_, _, _, _, _, _, input, _, _, hin2, _, _⟩ :=
      mainRun_commit_inv env m hmem
    rw [hin] at hin2
    exact Option.noConfusion hin2
  · intro hmem
    obtain ⟨input, hin2, _⟩ := mainRun_cancel_inv env hmem
    rw [hin] at hin2
    exact Option.noConfusion hin2
  · intro so se key resp c cs hgit hdiff hne hkey hhttp hch
    have hmain := mainRun_prompt env so se key resp c cs hgit hdiff hne hkey hhttp hch
    rw [hin] at hmain
    exact hmain

/-- Witness for C9 at a concrete run whose console read fails. -/
theorem read_failure_is_fatal_witness :
    mainRun (sampleEnv [0x61] (some "k")
        (Except.ok (sampleResponse [sampleChoice "msg"])) none
        (StatusResult.exited true ""))
      = (promptPrefix "k" (utf8Lossy [0x61]) (sampleChoice "msg").message.content,
         Outcome.panicked "Failed to read input") :=
  (read_failure_is_fatal _ rfl).2.2 [0x61] [] "k"
    (sampleResponse [sampleChoice "msg"]) (sampleChoice "msg") []
    rfl rfl (by decide) rfl rfl rfl

/-- C10: the empty-diff gate compares against the exact empty string only: a
successful diff that is non-empty whitespace (such as "\n") is not
short-circuited — the "No changes detected." line never appears and the
network request carrying that whitespace string verbatim as the user-message
content is in the trace. -/
theorem whitespace_diff_proceeds (env : Env) (so se : List Nat) (key : String)
    (hgit : env.dotGitExists = true)
    (hdiff : env.diffResult = ToolResult.ran true so se)
    (hne : utf8Lossy so ≠ "")
    (hkey : env.apiKey = some key) :
    Event.outLine "No changes detected." ∉ (mainRun env).1 ∧
    Event.networkRequest chatCompletionsUrl key (buildRequestBody (utf8Lossy so))
      ∈ (mainRun env).1 ∧
    (buildRequestBody (utf8Lossy so)).messages
      = [{ role := "system", content := systemInstruction },
         { role := "user", content := utf8Lossy so }] := by
  refine ⟨?_, mainRun_network_mem env so se key hgit hdiff hne hkey, rfl⟩
  intro hmem
  obtain ⟨so2, se2, hd2, hz⟩ := mainRun_nochanges_inv env hmem
  rw [hdiff] at hd2
  injection hd2 with h1 h2 h3
  subst h2
  exact hne hz

/-- Witness for C10: a diff consisting of a single newline proceeds to the
network call. -/
theorem whitespace_diff_proceeds_witness :
    utf8Lossy [0x0A] = "\n" ∧
    Event.networkRequest chatCompletionsUrl "k" (buildRequestBody (utf8Lossy [0x0A]))
      ∈ (mainRun (sampleEnv [0x0A] (some "k") (Except.error "down") none
          (StatusResult.exited true ""))).1 :=
  ⟨by decide,
   (whitespace_diff_proceeds (sampleEnv [0x0A] (some "k") (Except.error "down") none
      (StatusResult.exited true "")) [0x0A] [] "k" rfl rfl (by decide) rfl).2.1⟩

/-- The environment of the C8 counterexample: a git repository with a
non-empty staged diff but no OPENAI_API_KEY available. -/
def noKeyEnv : Env :=
  sampleEnv [0x61] none (Except.error "unreachable") (some "y")
    (StatusResult.exited true "")

/-- C8 counterexample: with the key unset the run is a failure path that
prints no diagnostic line of its own and aborts via panic instead of
returning from the main flow normally. -/
theorem missing_key_panics :
    mainRun noKeyEnv
      = ([Event.toolInvoked "git" ["diff", "--cached"]],
         Outcome.panicked "OPENAI_API_KEY not set in .env file") ∧
    (mainRun noKeyEnv).2 ≠ Outcome.exited := by
  constructor <;> decide

/-- C8 (amended): every failure path handled in `main` prints a diagnostic
and returns from the main flow normally (every normally-ending run ends with
a console line and the process exits successfully), except the two
`expect`-based paths — a missing OPENAI_API_KEY and a failed read of the
confirmation line — which abort the process abnormally via panic. -/
theorem exit_behaviour (env : Env) :
    ((mainRun env).2 = Outcome.exited ∨
     (mainRun env).2 = Outcome.panicked "OPENAI_API_KEY not set in .env file" ∨
     (mainRun env).2 = Outcome.panicked "Failed to read input") ∧
    (env.apiKey.isSome = true → env.stdinLine.isSome = true →
      (mainRun env).2 = Outcome.exited) ∧
    ((mainRun env).2 = Outcome.exited →
      endsWithConsoleLine (mainRun env).1 = true) := by
  rcases env with ⟨git, dres, akey, http, stdin, cres⟩
  cases git
  · simp [mainRun, is_git_repository, endsWithConsoleLine]
  · rcases dres with e | ⟨s, so, se⟩
    · simp [mainRun, is_git_repository, get_git_diff, endsWithConsoleLine]
    · cases s
      · simp [mainRun, is_git_repository, get_git_diff, endsWithConsoleLine]
      · by_cases hemp : (utf8Lossy so).isEmpty
        · simp [mainRun, is_git_repository, get_git_diff, hemp,
            endsWithConsoleLine]
        · rcases akey with _ | key
          · simp [mainRun, is_git_repository, get_git_diff, hemp,
              generate_commit_message, endsWithConsoleLine]
          · rcases http with e2 | resp
            · simp [mainRun, is_git_repository, get_git_diff, hemp,
                generate_commit_message, endsWithConsoleLine]
            · rcases hch : resp.choices with _ | ⟨c, cs⟩
              · simp [mainRun, is_git_repository, get_git_diff, hemp,
                  generate_commit_message, hch, endsWithConsoleLine]
              · rcases stdin with _ | input
                · simp [mainRun, is_git_repository, get_git_diff, hemp,
                    generate_commit_message, hch, endsWithConsoleLine]
                · by_cases hcf : confirmsCommit input
                  · rcases cres with e3 | ⟨cs2, d⟩
                    · simp [mainRun, is_git_repository, get_git_diff, hemp,
                        generate_commit_message, hch, hcf, commit_changes,
                        endsWithConsoleLine]
                    · cases cs2 <;>
                        simp [mainRun, is_git_repository, get_git_diff, hemp,
                          generate_commit_message, hch, hcf, commit_changes,
                          endsWithConsoleLine]
                  · simp [mainRun, is_git_repository, get_git_diff, hemp,
                      generate_commit_message, hch, hcf, endsWithConsoleLine]

/-- Witness for C8 (amended): with a key present and a readable console line
the run ends normally. -/
theorem exit_behaviour_witness :
    (mainRun (sampleEnv [0x61] (some "k") (Except.error "down") (some "n")
        (StatusResult.exited true ""))).2 = Outcome.exited :=
  (exit_behaviour (sampleEnv [0x61] (some "k") (Except.error "down") (some "n")
      (StatusResult.exited true ""))).2.1 rfl rfl

end Gmh
